import Mathlib

set_option maxRecDepth 100000

/-!
Verification of the KDBX v3 reader (`src/format/Kdbx3Reader.cpp`) and of the
XML-layer behaviours exercised by `tests/TestKeePass2Format.cpp`.

The container reader `Kdbx3Reader::readDatabase` is embedded shallowly in the
namespace `Kdbx`: bytes are `List Nat`, the wrapped `StoreDataStream` is a pair
of remaining data and stored (already read) data, and the cryptographic
collaborators of the reader (SHA-256, AES-KDF, the symmetric cipher stream, the
hashed block stream, gzip, the inner random stream and the XML reader), whose
sources are not part of this repository snapshot, are abstracted as an
environment of functions (`Kdbx.Env`).

The XML reader (`Kdbx3XmlReader`) and the invalid-XML-character scrubbing are
not part of the snapshot either; they are modelled from the specification in
the namespace `KXml` and settled against the expectations recorded in
`tests/TestKeePass2Format.cpp`.
-/

namespace Kdbx

/-- Byte strings are lists of naturals (each byte a value below 256). -/
abbrev Bytes := List Nat

/-- Little-endian interpretation of a byte string, first byte least
significant; mirrors `Endian::bytesToSizedInt` for data of the checked size. -/
def leNat : Bytes → Nat
  | [] => 0
  | b :: rest => b + 256 * leNat rest

/-- KDBX signature-1, `KeePass2::SIGNATURE_1`. -/
def SIGNATURE_1 : Nat := 0x9AA2D903

/-- KDBX v2/v3 signature-2, `KeePass2::SIGNATURE_2`. -/
def SIGNATURE_2 : Nat := 0xB54BFB67

/-- Modelled from the spec: `KeePass1::SIGNATURE_2`, the second magic word of
the legacy KDB v1 format (`KeePass1.h` is not under src). -/
def KP1_SIGNATURE_2 : Nat := 0xB54BFB65

/-- `KeePass2::FILE_VERSION`, the newest supported version (3.1). -/
def FILE_VERSION : Nat := 0x00030001

/-- `KeePass2::FILE_VERSION_CRITICAL_MASK`. -/
def FILE_VERSION_CRITICAL_MASK : Nat := 0xFFFF0000

/-- Modelled from the spec: `KeePass2::FILE_VERSION_MIN` (the oldest accepted
masked version; `KeePass2.h` is not under src, the spec only requires the
masked version to lie in `[FILE_VERSION_MIN, supported max]`). -/
def FILE_VERSION_MIN : Nat := 0x00020000

/-- Modelled from the spec: the AES-256-CBC cipher UUID
`31C1F2E6 BF71 4350 BE58 05216AFC5AFF` (mandatory cipher, spec section 6). -/
def CIPHER_AES : Bytes :=
  [0x31, 0xC1, 0xF2, 0xE6, 0xBF, 0x71, 0x43, 0x50,
   0xBE, 0x58, 0x05, 0x21, 0x6A, 0xFC, 0x5A, 0xFF]

/-- Modelled from the spec: `SymmetricCipher::cipherToAlgorithm` recognises the
mandatory AES-256-CBC UUID and rejects anything else (`SymmetricCipher.cpp` is
not under src; the spec says AES-256-CBC is mandatory, others may be rejected
with "Unsupported cipher"). `none` plays `SymmetricCipher::InvalidAlgorithm`. -/
def cipherToAlgorithm (uuid : Bytes) : Option Unit :=
  if uuid = CIPHER_AES then some () else none

/-- The nil UUID (16 zero bytes); `Uuid()`/`Uuid::isNull`. -/
def nilUuid : Bytes := List.replicate 16 0

/-- AES-KDF parameters held by an `AesKdf` object: seed and rounds. -/
structure KdfAes where
  seed : Bytes
  rounds : Nat
deriving DecidableEq

/-- The database KDF slot: an AES-KDF (`Kdf::Type::AES`) or some other kind. -/
inductive Kdf where
  | aes (k : KdfAes)
  | other
deriving DecidableEq

/-- Modelled from the spec: the state of a fresh `AesKdf()` created by
`setTransformSeed`/`setTransformRounds` when the database KDF is not AES
(`AesKdf.cpp` is not under src; only the field subsequently set matters for
the header fields, the other component keeps the constructor default). -/
def aesKdfDefault : KdfAes := { seed := [], rounds := 100000 }

/-- The slice of the `Database` object that `Kdbx3Reader` reads or mutates. -/
structure Database where
  cipher : Bytes
  compressionAlgo : Nat
  kdf : Kdf
  transformedMasterKey : Bytes
  challengeResponseKey : Bytes
deriving DecidableEq

/-- Modelled from the spec: the freshly constructed `Database()` handed to the
reader ("every entity is created empty by the reader"): nil cipher, gzip
compression, a default AES-KDF, empty key material (`Database.cpp` is not
under src). -/
def initialDatabase : Database :=
  { cipher := nilUuid
  , compressionAlgo := 1
  , kdf := .aes aesKdfDefault
  , transformedMasterKey := []
  , challengeResponseKey := [] }

/-- The `StoreDataStream` wrapper around the input device: remaining bytes
plus the buffer of every byte already surfaced (`storedData()`). -/
structure ByteStream where
  data : Bytes
  stored : Bytes
deriving DecidableEq

/-- `read(n)` on the store-data stream: yields up to `n` bytes and appends
whatever was read to the stored buffer. -/
def sread (s : ByteStream) (n : Nat) : Bytes × ByteStream :=
  (s.data.take n, ⟨s.data.drop n, s.stored ++ s.data.take n⟩)

/-- `Endian::readSizedInt` over the store-data stream: consume `n` bytes; the
flag is `none` exactly when fewer than `n` bytes were available. -/
def readUIntLE (s : ByteStream) (n : Nat) : Option Nat × ByteStream :=
  let r := sread s n
  if r.1.length = n then (some (leNat r.1), r.2) else (none, r.2)

/-- The reader state: the database being built plus the header fields
(`m_masterSeed`, …) and the error flag of `Kdbx3Reader`. An empty byte string
plays `QByteArray::isEmpty()` for the required-header check. -/
structure ReaderState where
  db : Database
  masterSeed : Bytes
  encryptionIV : Bytes
  streamStartBytes : Bytes
  protectedStreamKey : Bytes
  irsAlgo : Nat
  headerEnd : Bool
  error : Option String
deriving DecidableEq

/-- The reader state at the top of `readDatabase` after the `clear()` calls. -/
def initialReaderState : ReaderState :=
  { db := initialDatabase
  , masterSeed := []
  , encryptionIV := []
  , streamStartBytes := []
  , protectedStreamKey := []
  , irsAlgo := 2
  , headerEnd := false
  , error := none }

/-- `BaseKeePass2Reader::raiseError`: record the message, set the flag. -/
def raiseError (st : ReaderState) (e : String) : ReaderState :=
  { st with error := some e }

/-- `Kdbx3Reader::setCipher`. -/
def setCipher (st : ReaderState) (data : Bytes) : ReaderState :=
  if data.length ≠ 16 then raiseError st "Invalid cipher uuid length"
  else if cipherToAlgorithm data = none then raiseError st "Unsupported cipher"
  else { st with db := { st.db with cipher := data } }

/-- `Kdbx3Reader::setCompressionFlags` (`CompressionAlgorithmMax = 1`). -/
def setCompressionFlags (st : ReaderState) (data : Bytes) : ReaderState :=
  if data.length ≠ 4 then raiseError st "Invalid compression flags length"
  else if leNat data > 1 then raiseError st "Unsupported compression algorithm"
  else { st with db := { st.db with compressionAlgo := leNat data } }

/-- `Kdbx3Reader::setMasterSeed`. -/
def setMasterSeed (st : ReaderState) (data : Bytes) : ReaderState :=
  if data.length ≠ 32 then raiseError st "Invalid master seed size"
  else { st with masterSeed := data }

/-- `Kdbx3Reader::setTransformSeed`: reuse the database KDF when it already is
an AES-KDF, otherwise install a fresh one; then set its seed. -/
def setTransformSeed (st : ReaderState) (data : Bytes) : ReaderState :=
  if data.length ≠ 32 then raiseError st "Invalid transform seed size"
  else
    let aesKdf := match st.db.kdf with
      | .aes k => k
      | .other => aesKdfDefault
    { st with db := { st.db with kdf := .aes { aesKdf with seed := data } } }

/-- `Kdbx3Reader::setTransformRounds`: reuse the database KDF when it already
is an AES-KDF, otherwise install a fresh one; then set its rounds. -/
def setTransformRounds (st : ReaderState) (data : Bytes) : ReaderState :=
  if data.length ≠ 8 then raiseError st "Invalid transform rounds size"
  else
    let aesKdf := match st.db.kdf with
      | .aes k => k
      | .other => aesKdfDefault
    { st with db := { st.db with kdf := .aes { aesKdf with rounds := leNat data } } }

/-- `Kdbx3Reader::setEncryptionIV` (no length check in the reader). -/
def setEncryptionIV (st : ReaderState) (data : Bytes) : ReaderState :=
  { st with encryptionIV := data }

/-- `Kdbx3Reader::setProtectedStreamKey` (no length check in the reader). -/
def setProtectedStreamKey (st : ReaderState) (data : Bytes) : ReaderState :=
  { st with protectedStreamKey := data }

/-- `Kdbx3Reader::setStreamStartBytes`. -/
def setStreamStartBytes (st : ReaderState) (data : Bytes) : ReaderState :=
  if data.length ≠ 32 then raiseError st "Invalid start bytes size"
  else { st with streamStartBytes := data }

/-- Modelled from the spec: `KeePass2::idToProtectedStreamAlgo` — ids 0, 1, 2
name the plain, ArcFourVariant and Salsa20 algorithms, everything else is
invalid (`KeePass2.cpp` is not under src). `none` plays
`InvalidProtectedStreamAlgo`. -/
def idToProtectedStreamAlgo (id : Nat) : Option Nat :=
  if id ≤ 2 then some id else none

/-- `Kdbx3Reader::setInnerRandomStreamID`: reject the invalid algorithm and
`ArcFourVariant` (id 1). -/
def setInnerRandomStreamID (st : ReaderState) (data : Bytes) : ReaderState :=
  if data.length ≠ 4 then raiseError st "Invalid random stream id size"
  else
    match idToProtectedStreamAlgo (leNat data) with
    | none => raiseError st "Invalid inner random stream cipher"
    | some a =>
      if a = 1 then raiseError st "Invalid inner random stream cipher"
      else { st with irsAlgo := a }

/-- The `switch (fieldID)` of `Kdbx3Reader::readHeaderField`; field ids follow
the KDBX v3 table (0 end, 2 cipher, 3 compression, 4 master seed, 5 transform
seed, 6 transform rounds, 7 IV, 8 protected stream key, 9 stream start bytes,
10 inner random stream id); unknown ids only warn. -/
def applyHeaderField (st : ReaderState) (fieldID : Nat) (fieldData : Bytes) : ReaderState :=
  if fieldID = 0 then { st with headerEnd := true }
  else if fieldID = 2 then setCipher st fieldData
  else if fieldID = 3 then setCompressionFlags st fieldData
  else if fieldID = 4 then setMasterSeed st fieldData
  else if fieldID = 5 then setTransformSeed st fieldData
  else if fieldID = 6 then setTransformRounds st fieldData
  else if fieldID = 7 then setEncryptionIV st fieldData
  else if fieldID = 8 then setProtectedStreamKey st fieldData
  else if fieldID = 9 then setStreamStartBytes st fieldData
  else if fieldID = 10 then setInnerRandomStreamID st fieldData
  else st

/-- `Kdbx3Reader::readHeaderField`: read one TLV record (u8 id, u16 LE length,
payload), apply it, and report whether the header loop should continue
(the C++ function returns `!m_headerEnd`, or `false` on a malformed record). -/
def readHeaderField (st : ReaderState) (s : ByteStream) : ReaderState × ByteStream × Bool :=
  let rid := sread s 1
  match rid.1 with
  | [fieldID] =>
    match readUIntLE rid.2 2 with
    | (some fieldLen, s2) =>
      let rdata := sread s2 fieldLen
      if rdata.1.length = fieldLen then
        let st2 := applyHeaderField st fieldID rdata.1
        (st2, rdata.2, !st2.headerEnd)
      else (raiseError st "Invalid header data length", rdata.2, false)
    | (none, s2) => (raiseError st "Invalid header field length", s2, false)
  | _ => (raiseError st "Invalid header id size", rid.2, false)

/-- The header loop `while (readHeaderField() && !hasError()) {}`, fuelled so
that it computes by reduction; each successful record consumes at least three
bytes, so `data.length + 1` fuel always suffices (`readHeaderLoop` below). -/
def readHeaderLoopF : Nat → ReaderState → ByteStream → ReaderState × ByteStream
  | 0, st, s => (st, s)
  | Nat.succ fuel, st, s =>
    let r := readHeaderField st s
    if r.2.2 = true ∧ r.1.error = none then readHeaderLoopF fuel r.1 r.2.1
    else (r.1, r.2.1)

/-- The header loop with always-sufficient fuel. -/
def readHeaderLoop (st : ReaderState) (s : ByteStream) : ReaderState × ByteStream :=
  readHeaderLoopF (s.data.length + 1) st s

/-- The first phase of `Kdbx3Reader::readDatabase` (lines 45-106): magic
words, version gate, header-field loop, required-header check. On success it
yields the populated reader state and the stream (whose `stored` buffer holds
exactly the bytes the header parser consumed, and whose `data` is the
untouched remainder handed to the cipher stream). -/
def headerPhase (input : Bytes) : Except String (ReaderState × ByteStream) :=
  match readUIntLE ⟨input, []⟩ 4 with
  | (none, _) => .error "Not a KeePass database."
  | (some signature1, s1) =>
    if signature1 ≠ SIGNATURE_1 then .error "Not a KeePass database."
    else
      match readUIntLE s1 4 with
      | (none, _) => .error "Not a KeePass database."
      | (some signature2, s2) =>
        if signature2 = KP1_SIGNATURE_2 then
          .error "The selected file is an old KeePass 1 database (.kdb)."
        else if signature2 ≠ SIGNATURE_2 then .error "Not a KeePass database."
        else
          match readUIntLE s2 4 with
          | (none, _) => .error "Unsupported KeePass KDBX 2 or 3 database version."
          | (some rawVersion, s3) =>
            let version := rawVersion &&& FILE_VERSION_CRITICAL_MASK
            let maxVersion := FILE_VERSION &&& FILE_VERSION_CRITICAL_MASK
            if version < FILE_VERSION_MIN ∨ version > maxVersion then
              .error "Unsupported KeePass KDBX 2 or 3 database version."
            else
              let r := readHeaderLoop initialReaderState s3
              match r.1.error with
              | some e => .error e
              | none =>
                if r.1.masterSeed = [] ∨ r.1.encryptionIV = [] ∨
                    r.1.streamStartBytes = [] ∨ r.1.protectedStreamKey = [] ∨
                    r.1.db.cipher = nilUuid then
                  .error "missing database headers"
                else .ok (r.1, r.2)

/-- The outcome of `Kdbx3XmlReader::readDatabase` on the decrypted payload:
error flag and message, the `HeaderHash` declared by the XML Meta (empty when
absent), and the database as mutated by the XML reader. -/
structure XmlOutcome where
  hasError : Bool
  errorString : String
  headerHash : Bytes
  db : Database
deriving DecidableEq

/-- Modelled from the spec: the collaborators of `Kdbx3Reader::readDatabase`
whose sources are not under src — SHA-256 (`CryptoHash`), the AES-KDF
transformation (`AesKdf::transform`, `none` on failure), the symmetric cipher
stream as a whole-stream decryption (`none` when `init`/`open` fails), the
hashed block stream decoding, gzip decompression, the inner random stream
initialisation, the optional challenge-response provider (`none` when no
hardware key is present) and the XML reader. -/
structure Env where
  sha256 : Bytes → Bytes
  aesKdfTransform : Bytes → Bytes → Nat → Option Bytes
  decrypt : Bytes → Bytes → Bytes → Option Bytes
  hashedBlockDecode : Bytes → Option Bytes
  gunzip : Bytes → Option Bytes
  randomStreamInit : Bytes → Bool
  challenge : Option (Bytes → Option Bytes)
  xmlRead : Bytes → Database → XmlOutcome

/-- Modelled from the spec: `Database::setKey(key, false)` — derive the
transformed master key by running the database KDF (for v3 the AES-KDF under
the header seed and rounds) over the composite key material; `none` (`false`
in C++) when the transformation fails (`Database.cpp` is not under src). -/
def dbSetKey (env : Env) (db : Database) (key : Bytes) : Option Database :=
  match db.kdf with
  | .aes k =>
    (env.aesKdfTransform key k.seed k.rounds).map
      (fun t => { db with transformedMasterKey := t })
  | .other => none

/-- Modelled from the spec: `Database::challengeMasterSeed` — ask the optional
challenge-response provider with the master seed; the stored response has
length 0 when no provider is present (`Database.cpp` is not under src). -/
def dbChallengeMasterSeed (env : Env) (db : Database) (seed : Bytes) : Option Database :=
  match env.challenge with
  | none => some { db with challengeResponseKey := [] }
  | some f => (f seed).map (fun r => { db with challengeResponseKey := r })

/-- The optional challenge response as the spec words it: the provider's
answer to the master seed, or the empty byte string when absent. -/
def challengeResult (env : Env) (seed : Bytes) : Option Bytes :=
  match env.challenge with
  | none => some []
  | some f => f seed

/-- The final symmetric key as the spec words it:
`SHA-256(masterSeed || challengeResponse || transformedKey)`. -/
def specFinalKey (env : Env) (masterSeed challengeResponse transformedKey : Bytes) : Bytes :=
  env.sha256 (masterSeed ++ challengeResponse ++ transformedKey)

/-- The result of `readDatabase`: the returned database pointer (`none` for
`nullptr`) and the recorded error message, if any. -/
structure ReadResult where
  db : Option Database
  error : Option String
deriving DecidableEq

/-- The error message of the stream-start-bytes check. -/
def wrongKeyMsg : String := "Wrong key or database file is corrupt."

/-- The error message of the header-hash check, built without a literal
apostrophe: `"Header doesn't match hash"`. -/
def headerHashMsg : String :=
  "Header doesn" ++ String.singleton (Char.ofNat 39) ++ "t match hash"

/-- Lines 143-201 of `readDatabase`: hashed block stream, optional gzip,
inner random stream, XML reader, keep-database handling and the final
header-hash check over the bytes captured by the store-data stream. -/
def payloadPhase (env : Env) (stored : Bytes) (st : ReaderState) (db : Database)
    (keepDatabase : Bool) (pt : Bytes) : ReadResult :=
  match env.hashedBlockDecode pt with
  | none => ⟨none, some "Unable to open hashed block stream"⟩
  | some blocks =>
    match (if db.compressionAlgo = 0 then some blocks else env.gunzip blocks) with
    | none => ⟨none, some "Unable to open gzip stream"⟩
    | some xmlBytes =>
      if env.randomStreamInit st.protectedStreamKey = false then
        ⟨none, some "Unable to initialize inner random stream"⟩
      else
        let out := env.xmlRead xmlBytes db
        if out.hasError then
          ⟨if keepDatabase then some out.db else none, some out.errorString⟩
        else
          if out.headerHash ≠ [] then
            if env.sha256 stored ≠ out.headerHash then ⟨none, some headerHashMsg⟩
            else ⟨some out.db, none⟩
          else ⟨some out.db, none⟩

/-- Lines 124-141 of `readDatabase`: initialise the cipher stream with the
final key and the header IV, read the first 32 plaintext bytes, compare them
with `streamStartBytes`, then hand the rest to the payload phase. -/
def startBytesPhase (env : Env) (stream : ByteStream) (st : ReaderState)
    (db : Database) (keepDatabase : Bool) (finalKey : Bytes) : ReadResult :=
  match env.decrypt finalKey st.encryptionIV stream.data with
  | none => ⟨none, some "Unable to initialize cipher"⟩
  | some plaintext =>
    if plaintext.take 32 ≠ st.streamStartBytes then ⟨none, some wrongKeyMsg⟩
    else payloadPhase env stream.stored st db keepDatabase (plaintext.drop 32)

/-- `Kdbx3Reader::readDatabase(device, key, keepDatabase)`: header phase, key
derivation (`setKey`, `challengeMasterSeed`, the SHA-256 of master seed,
challenge response and transformed key), then the cipher stream and payload. -/
def readDatabase (env : Env) (input : Bytes) (key : Bytes) (keepDatabase : Bool) : ReadResult :=
  match headerPhase input with
  | .error e => ⟨none, some e⟩
  | .ok (st, stream) =>
    match dbSetKey env st.db key with
    | none => ⟨none, some "Unable to calculate master key"⟩
    | some db1 =>
      match dbChallengeMasterSeed env db1 st.masterSeed with
      | none => ⟨none, some "Unable to issue challenge-response."⟩
      | some db2 =>
        startBytesPhase env stream st db2 keepDatabase
          (env.sha256 (st.masterSeed ++ db2.challengeResponseKey ++ db2.transformedMasterKey))

/-- The condition under which the claim expects the wrong-key error: the
reader reached the stream-start-bytes comparison (header parsed, keys derived,
cipher stream initialised) and the first 32 decrypted bytes differ from the
`StreamStartBytes` header field. Written from the spec sentence; compared with
`readDatabase` by the corresponding theorem. -/
def startBytesMismatch (env : Env) (input key : Bytes) : Bool :=
  match headerPhase input with
  | .error _ => false
  | .ok (st, stream) =>
    match dbSetKey env st.db key with
    | none => false
    | some db1 =>
      match dbChallengeMasterSeed env db1 st.masterSeed with
      | none => false
      | some db2 =>
        match env.decrypt
            (env.sha256 (st.masterSeed ++ db2.challengeResponseKey ++ db2.transformedMasterKey))
            st.encryptionIV stream.data with
        | none => false
        | some plaintext => decide (plaintext.take 32 ≠ st.streamStartBytes)

/-- The condition under which the claim allows the partial database to be
returned: the error arose inside the XML payload, i.e. the reader reached the
XML reader and the XML reader failed. Written from the spec sentence; compared
with `readDatabase` by the corresponding theorem. -/
def xmlPhaseErrored (env : Env) (input key : Bytes) : Bool :=
  match headerPhase input with
  | .error _ => false
  | .ok (st, stream) =>
    match dbSetKey env st.db key with
    | none => false
    | some db1 =>
      match dbChallengeMasterSeed env db1 st.masterSeed with
      | none => false
      | some db2 =>
        match env.decrypt
            (env.sha256 (st.masterSeed ++ db2.challengeResponseKey ++ db2.transformedMasterKey))
            st.encryptionIV stream.data with
        | none => false
        | some plaintext =>
          if plaintext.take 32 ≠ st.streamStartBytes then false
          else
            match env.hashedBlockDecode (plaintext.drop 32) with
            | none => false
            | some blocks =>
              match (if db2.compressionAlgo = 0 then some blocks else env.gunzip blocks) with
              | none => false
              | some xmlBytes =>
                if env.randomStreamInit st.protectedStreamKey = false then false
                else (env.xmlRead xmlBytes db2).hasError

end Kdbx

namespace Kdbx

/-- A TLV header record: u8 id, u16 LE length, payload. -/
def fieldTLV (id : Nat) (data : Bytes) : Bytes :=
  id :: data.length % 256 :: data.length / 256 % 256 :: data

/-- A composite key used by the concrete witnesses. -/
def testKey : Bytes := List.replicate 32 7

/-- A well-formed KDBX 3.1 header: both magic words, version 3.1, cipher id
AES, no compression, 32-byte master seed, transform seed and rounds,
16-byte IV, protected stream key, stream start bytes (32 times 5), Salsa20
inner random stream, end of header. -/
def testHeaderBytes : Bytes :=
  [0x03, 0xD9, 0xA2, 0x9A] ++ [0x67, 0xFB, 0x4B, 0xB5] ++ [0x01, 0x00, 0x03, 0x00]
    ++ fieldTLV 2 CIPHER_AES
    ++ fieldTLV 3 [0, 0, 0, 0]
    ++ fieldTLV 4 (List.replicate 32 1)
    ++ fieldTLV 5 (List.replicate 32 2)
    ++ fieldTLV 6 [1, 0, 0, 0, 0, 0, 0, 0]
    ++ fieldTLV 7 (List.replicate 16 3)
    ++ fieldTLV 8 (List.replicate 32 4)
    ++ fieldTLV 9 (List.replicate 32 5)
    ++ fieldTLV 10 [2, 0, 0, 0]
    ++ fieldTLV 0 []

/-- A concrete input whose ciphertext starts (under `testEnv.decrypt`) with
exactly the stream start bytes of `testHeaderBytes`. -/
def testInput : Bytes := testHeaderBytes ++ List.replicate 32 5

/-- A concrete input whose decrypted first 32 bytes do not match the stream
start bytes of the header. -/
def testInputBad : Bytes := testHeaderBytes ++ List.replicate 32 9

/-- A concrete environment for the witnesses: a truncating stand-in hash, an
AES-KDF stand-in that returns the key material unchanged, a decryption that
returns the ciphertext unchanged, transparent hashed-block and gzip layers, no
challenge-response provider, and an XML reader that succeeds without declaring
a header hash. -/
def testEnv : Env :=
  { sha256 := fun b => b.take 32
  , aesKdfTransform := fun k _ _ => some k
  , decrypt := fun _ _ ct => some ct
  , hashedBlockDecode := fun b => some b
  , gunzip := fun b => some b
  , randomStreamInit := fun _ => true
  , challenge := none
  , xmlRead := fun _ db => ⟨false, "", [], db⟩ }

/-- `testEnv` with an XML reader that declares the header hash `[9]` (which
does not match the SHA-256 stand-in of the captured header bytes). -/
def testEnvHH : Env :=
  { testEnv with xmlRead := fun _ db => ⟨false, "", [9], db⟩ }

/-- `testEnv` with an XML reader that declares, as header hash, exactly the
SHA-256 stand-in of the bytes it will be checked against. -/
def testEnvHHok : Env :=
  { testEnv with xmlRead := fun _ db => ⟨false, "", testEnv.sha256 (testHeaderBytes.take 32) ++ [], db⟩ }

/-- The reader state produced by the header phase on `testInput`. -/
def testSt : ReaderState :=
  match headerPhase testInput with
  | .ok (st, _) => st
  | .error _ => initialReaderState

/-- The store-data stream produced by the header phase on `testInput`. -/
def testStream : ByteStream :=
  match headerPhase testInput with
  | .ok (_, s) => s
  | .error _ => ⟨[], []⟩

/-- The database after `setKey` under `testEnv` on the header of `testInput`
(the AES-KDF stand-in returns the key material unchanged). -/
def testDb1 : Database := { testSt.db with transformedMasterKey := testKey }

/-- The database after `challengeMasterSeed` under `testEnv` (no provider, so
the challenge response is empty). -/
def testDb2 : Database := { testDb1 with challengeResponseKey := [] }

/-- The reader state produced by the header phase on `testInputBad`. -/
def testStBad : ReaderState :=
  match headerPhase testInputBad with
  | .ok (st, _) => st
  | .error _ => initialReaderState

/-- The store-data stream produced by the header phase on `testInputBad`. -/
def testStreamBad : ByteStream :=
  match headerPhase testInputBad with
  | .ok (_, s) => s
  | .error _ => ⟨[], []⟩

end Kdbx

namespace KXml

/-!
Modelled from the spec: the XML payload reader (`Kdbx3XmlReader`) is not under
src — only its tests are (`TestKeePass2Format.cpp`). The model below follows
the schema and the strict/lenient policy table of spec section 4.4 and the
value-type rules of that section (a UUID is base64 of 16 bytes, an empty
element is nil), restricted to the parts the test fixtures exercise: group and
entry identity UUIDs, entry history, deleted objects, the Root element, and
UUID references from Meta (which only ever warn).
-/

/-- Byte strings, as in the container model. -/
abbrev Bytes := List Nat

/-- The nil UUID. -/
def nilUuid : Bytes := List.replicate 16 0

/-- Modelled from the spec: a deterministic supply of fresh non-nil UUIDs,
standing in for `Uuid::random()` in lenient-mode repairs. -/
def freshUuid (c : Nat) : Bytes := 1 :: c % 256 :: List.replicate 14 0

/-- A history item inside an Entry element: only its UUID element matters to
the fixtures (`none` = element absent, `some []` = empty element). -/
structure XHist where
  uuid : Option Bytes
deriving DecidableEq

/-- An Entry element: its UUID element and its History children. -/
structure XEntry where
  uuid : Option Bytes
  history : List XHist
deriving DecidableEq

/-- A Group element: its UUID element, child Group elements, Entry elements. -/
inductive XGroup where
  | mk (uuid : Option Bytes) (groups : List XGroup) (entries : List XEntry)

/-- The UUID element of a Group. -/
def XGroup.uuid : XGroup → Option Bytes
  | .mk u _ _ => u

/-- The child Group elements of a Group. -/
def XGroup.groups : XGroup → List XGroup
  | .mk _ g _ => g

/-- The Entry elements of a Group. -/
def XGroup.entries : XGroup → List XEntry
  | .mk _ _ e => e

/-- A DeletedObject element (`none` = the child element is absent). -/
structure XDelObj where
  uuid : Option Bytes
  time : Option Nat
deriving DecidableEq

/-- A Root element: its top-level Group elements and DeletedObjects. -/
structure XRoot where
  groups : List XGroup
  deletedObjects : List XDelObj

/-- The Meta UUID references the fixtures exercise. -/
structure XMeta where
  recycleBinUuid : Option Bytes
  lastTopVisibleGroup : Option Bytes
  lastSelectedGroup : Option Bytes
deriving DecidableEq

/-- A KeePassFile document: Meta plus its Root elements. -/
structure XDoc where
  meta : XMeta
  roots : List XRoot

/-- A Meta with no UUID references. -/
def emptyMeta : XMeta := ⟨none, none, none⟩

/-- A parsed entry: identity UUID and history snapshots. -/
inductive Entry where
  | mk (uuid : Bytes) (history : List Entry)

/-- The UUID of a parsed entry. -/
def Entry.uuid : Entry → Bytes
  | .mk u _ => u

/-- The history snapshots of a parsed entry. -/
def Entry.history : Entry → List Entry
  | .mk _ h => h

/-- A parsed group: identity UUID, subgroups, entries. -/
inductive Group where
  | mk (uuid : Bytes) (groups : List Group) (entries : List Entry)

/-- The UUID of a parsed group. -/
def Group.uuid : Group → Bytes
  | .mk u _ _ => u

/-- The subgroups of a parsed group. -/
def Group.groups : Group → List Group
  | .mk _ g _ => g

/-- The entries of a parsed group. -/
def Group.entries : Group → List Entry
  | .mk _ _ e => e

/-- A parsed deleted-object tombstone. -/
structure DelObj where
  uuid : Bytes
  time : Nat
deriving DecidableEq

/-- The database assembled by the XML reader. -/
structure XmlDatabase where
  root : Group
  deletedObjects : List DelObj

/-- The outcome of `readXml`: the database (absent on failure), the error
flag, and the number of semantic warnings emitted. -/
structure ParseResult where
  db : Option XmlDatabase
  hasError : Bool
  warnings : Nat

/-- Modelled from the spec: reading a UUID value — an empty element is nil; a
value of a wrong length is an error in strict mode and nil in lenient mode;
otherwise the 16 decoded bytes. -/
def readUuidVal (strict : Bool) (raw : Bytes) : Except String Bytes :=
  if raw = [] then .ok nilUuid
  else if raw.length ≠ 16 then
    (if strict then .error "Invalid uuid value" else .ok nilUuid)
  else .ok raw

/-- Modelled from the spec: resolving the identity UUID of a Group or Entry —
a missing element stands for nil; a nil result fails in strict mode and is
replaced by a fresh random UUID in lenient mode (policy table, spec 4.4). -/
def resolveIdentityUuid (strict : Bool) (ctr : Nat) (u : Option Bytes)
    (errMsg : String) : Except String (Bytes × Nat) :=
  match readUuidVal strict (match u with | none => [] | some raw => raw) with
  | .error e => .error e
  | .ok v =>
    if v = nilUuid then
      if strict then .error errMsg else .ok (freshUuid ctr, ctr + 1)
    else .ok (v, ctr)

/-- Modelled from the spec: parsing the History items of an entry — each item
gets an identity UUID like an entry; an item whose UUID differs from its
container fails in strict mode and is overwritten with the container UUID in
lenient mode (policy table, spec 4.4). -/
def parseHistList (strict : Bool) (containerUuid : Bytes) :
    Nat → List XHist → Except String (List Entry × Nat)
  | ctr, [] => .ok ([], ctr)
  | ctr, h :: rest =>
    match resolveIdentityUuid strict ctr h.uuid "Null entry uuid" with
    | .error e => .error e
    | .ok (u, c1) =>
      let fixed : Except String Bytes :=
        if u ≠ containerUuid then
          if strict then .error "History element with different uuid"
          else .ok containerUuid
        else .ok u
      match fixed with
      | .error e => .error e
      | .ok u2 =>
        match parseHistList strict containerUuid c1 rest with
        | .error e => .error e
        | .ok (tail, c2) => .ok (.mk u2 [] :: tail, c2)

/-- Modelled from the spec: parsing the Entry elements of a group. -/
def parseEntryList (strict : Bool) :
    Nat → List XEntry → Except String (List Entry × Nat)
  | ctr, [] => .ok ([], ctr)
  | ctr, e :: rest =>
    match resolveIdentityUuid strict ctr e.uuid "Null entry uuid" with
    | .error err => .error err
    | .ok (u, c1) =>
      match parseHistList strict u c1 e.history with
      | .error err => .error err
      | .ok (hist, c2) =>
        match parseEntryList strict c2 rest with
        | .error err => .error err
        | .ok (tail, c3) => .ok (.mk u hist :: tail, c3)

/-- Modelled from the spec: parsing a list of Group elements, fuelled by the
nesting depth so that it computes by reduction (the fixtures are shallow). -/
def parseGroupList (strict : Bool) :
    Nat → Nat → List XGroup → Except String (List Group × Nat)
  | _, ctr, [] => .ok ([], ctr)
  | 0, _, _ :: _ => .error "Group nesting too deep"
  | Nat.succ fuel, ctr, g :: rest =>
    match resolveIdentityUuid strict ctr g.uuid "Null group uuid" with
    | .error e => .error e
    | .ok (u, c1) =>
      match parseEntryList strict c1 g.entries with
      | .error e => .error e
      | .ok (es, c2) =>
        match parseGroupList strict fuel c2 g.groups with
        | .error e => .error e
        | .ok (subs, c3) =>
          match parseGroupList strict fuel c3 rest with
          | .error e => .error e
          | .ok (siblings, c4) => .ok (.mk u subs es :: siblings, c4)

/-- Modelled from the spec: parsing the DeletedObjects — an element with a
missing UUID or missing deletion time fails in strict mode and is skipped in
lenient mode (policy table, spec 4.4). -/
def parseDelObjs (strict : Bool) : List XDelObj → Except String (List DelObj)
  | [] => .ok []
  | d :: rest =>
    match d.uuid, d.time with
    | some u, some t =>
      match parseDelObjs strict rest with
      | .error e => .error e
      | .ok tail => .ok (⟨u, t⟩ :: tail)
    | _, _ =>
      if strict then .error "Missing DeletedObject uuid or time"
      else parseDelObjs strict rest

/-- Whether some group in the forest carries the given UUID (fuelled by
depth, as `parseGroupList`). -/
def groupsHaveUuid : Nat → List Group → Bytes → Bool
  | 0, _, _ => false
  | _, [], _ => false
  | Nat.succ fuel, g :: rest, u =>
    g.uuid = u || groupsHaveUuid fuel g.groups u || groupsHaveUuid fuel rest u

/-- Modelled from the spec: a UUID reference from Meta that names no group in
the tree yields one warning, never an error (policy table, spec 4.4); an
absent or empty (nil) reference is silently ignored. -/
def refWarn (u : Option Bytes) (root : Group) : Nat :=
  match u with
  | none => 0
  | some raw =>
    if raw = [] then 0
    else if groupsHaveUuid 64 [root] raw then 0 else 1

/-- The warnings of the Meta UUID references. -/
def refWarnings (meta : XMeta) (root : Group) : Nat :=
  refWarn meta.recycleBinUuid root + refWarn meta.lastTopVisibleGroup root +
    refWarn meta.lastSelectedGroup root

/-- Modelled from the spec: `readXml(source, strict)` — exactly one Root
element holding exactly one root Group is required in both modes (policy
table, spec 4.4); then groups, entries, history and deleted objects are parsed
under the strict/lenient policy, and dangling Meta references only warn. -/
def readXml (strict : Bool) (doc : XDoc) : ParseResult :=
  match doc.roots with
  | [] => ⟨none, true, 0⟩
  | [r] =>
    match r.groups with
    | [] => ⟨none, true, 0⟩
    | [g] =>
      match parseGroupList strict 64 0 [g] with
      | .error _ => ⟨none, true, 0⟩
      | .ok ([pg], _) =>
        match parseDelObjs strict r.deletedObjects with
        | .error _ => ⟨none, true, 0⟩
        | .ok ds => ⟨some ⟨pg, ds⟩, false, refWarnings doc.meta pg⟩
      | .ok _ => ⟨none, true, 0⟩
    | _ => ⟨none, true, 0⟩
  | _ => ⟨none, true, 0⟩

/-- A valid 16-byte UUID used by the fixtures. -/
def uuidA : Bytes := List.replicate 15 0 ++ [1]

/-- A second valid UUID. -/
def uuidB : Bytes := List.replicate 15 0 ++ [2]

/-- A third valid UUID, used as a dangling reference or divergent history. -/
def uuidC : Bytes := List.replicate 15 0 ++ [3]

/-- A well-formed group with UUID `uuidA` and no children. -/
def goodGroup : XGroup := .mk (some uuidA) [] []

/-- Modelled from the spec: `BrokenNoGroupUuid.xml` — the root Group carries
no UUID element. -/
def brokenNoGroupUuid : XDoc := ⟨emptyMeta, [⟨[.mk none [] []], []⟩]⟩

/-- Modelled from the spec: `BrokenNoEntryUuid.xml` — an Entry without a UUID
element inside a well-formed root Group. -/
def brokenNoEntryUuid : XDoc :=
  ⟨emptyMeta, [⟨[.mk (some uuidA) [] [⟨none, []⟩]], []⟩]⟩

/-- Modelled from the spec: `BrokenNoRootGroup.xml` — a Root element holding
no Group. -/
def brokenNoRootGroup : XDoc := ⟨emptyMeta, [⟨[], []⟩]⟩

/-- Modelled from the spec: `BrokenTwoRoots.xml` — two Root elements. -/
def brokenTwoRoots : XDoc := ⟨emptyMeta, [⟨[goodGroup], []⟩, ⟨[goodGroup], []⟩]⟩

/-- Modelled from the spec: `BrokenTwoRootGroups.xml` — one Root element
holding two Groups. -/
def brokenTwoRootGroups : XDoc :=
  ⟨emptyMeta, [⟨[goodGroup, .mk (some uuidB) [] []], []⟩]⟩

/-- Modelled from the spec: `BrokenGroupReference.xml` — a well-formed tree
whose Meta references a Group UUID that is not present. -/
def brokenGroupReference : XDoc :=
  ⟨{ emptyMeta with lastTopVisibleGroup := some uuidC }, [⟨[goodGroup], []⟩]⟩

/-- Modelled from the spec: `BrokenDeletedObjects.xml` — a DeletedObject with
a missing deletion time. -/
def brokenDeletedObjects : XDoc :=
  ⟨emptyMeta, [⟨[goodGroup], [⟨some uuidB, none⟩]⟩]⟩

/-- Modelled from the spec: `BrokenDifferentEntryHistoryUuid.xml` — one entry
whose single history item carries a different UUID. -/
def brokenDifferentEntryHistoryUuid : XDoc :=
  ⟨emptyMeta, [⟨[.mk (some uuidA) [] [⟨some uuidB, [⟨some uuidC⟩]⟩]], []⟩]⟩

/-- Modelled from the spec: `EmptyUuids.xml` — a well-formed tree whose Meta
UUID references are empty elements (decoded as nil), as exercised by
`testXmlEmptyUuids` with strict mode on. -/
def emptyUuids : XDoc :=
  ⟨{ recycleBinUuid := some [], lastTopVisibleGroup := some [],
     lastSelectedGroup := some [] },
   [⟨[.mk (some uuidA) [] [⟨some uuidB, []⟩]], []⟩]⟩

/-- The lenient-mode parse of `BrokenDifferentEntryHistoryUuid.xml`, checked
by `testXmlRepairUuidHistoryItem`. -/
def repairedHistoryResult : ParseResult := readXml false brokenDifferentEntryHistoryUuid

end KXml

namespace KXml

/-- Whether a UTF-16 code unit is a high surrogate. -/
def isHighSurrogate (c : Nat) : Bool := 0xD800 ≤ c ∧ c ≤ 0xDBFF

/-- Whether a UTF-16 code unit is a low surrogate. -/
def isLowSurrogate (c : Nat) : Bool := 0xDC00 ≤ c ∧ c ≤ 0xDFFF

/-- Whether a code point lies in the XML 1.0 character range
U+0009, U+000A, U+000D, U+0020..U+D7FF, U+E000..U+FFFD, U+10000..U+10FFFF. -/
def isValidXmlChar (cp : Nat) : Bool :=
  cp = 0x9 ∨ cp = 0xA ∨ cp = 0xD ∨ (0x20 ≤ cp ∧ cp ≤ 0xD7FF) ∨
    (0xE000 ≤ cp ∧ cp ≤ 0xFFFD) ∨ (0x10000 ≤ cp ∧ cp ≤ 0x10FFFF)

/-- Modelled from the spec: the invalid-XML-character scrubbing applied to
string values on their way through the XML layer (the writer/reader pair is
not under src). The input is a `QString`, a sequence of UTF-16 code units; a
high surrogate followed by a low surrogate is decoded as one supplementary
code point and kept if valid; unpaired surrogates are dropped; any other unit
is kept exactly when it is a valid XML character (detection on the decoded
code-point stream, spec 4.4). -/
def scrubUtf16 : List Nat → List Nat
  | [] => []
  | [c] =>
    if isHighSurrogate c || isLowSurrogate c then []
    else if isValidXmlChar c then [c] else []
  | c :: d :: rest =>
    if isHighSurrogate c then
      if isLowSurrogate d then
        let cp := 0x10000 + (c - 0xD800) * 0x400 + (d - 0xDC00)
        if isValidXmlChar cp then c :: d :: scrubUtf16 rest else scrubUtf16 rest
      else scrubUtf16 (d :: rest)
    else if isLowSurrogate c then scrubUtf16 (d :: rest)
    else if isValidXmlChar c then c :: scrubUtf16 (d :: rest)
    else scrubUtf16 (d :: rest)

end KXml

namespace Kdbx

theorem setCipher_error_ne (st : ReaderState) (data : Bytes)
    (h : st.error ≠ some wrongKeyMsg) : (setCipher st data).error ≠ some wrongKeyMsg := by
  unfold setCipher raiseError
  split_ifs <;> first | exact h | simp [wrongKeyMsg]

theorem setCompressionFlags_error_ne (st : ReaderState) (data : Bytes)
    (h : st.error ≠ some wrongKeyMsg) :
    (setCompressionFlags st data).error ≠ some wrongKeyMsg := by
  unfold setCompressionFlags raiseError
  split_ifs <;> first | exact h | simp [wrongKeyMsg]

theorem setMasterSeed_error_ne (st : ReaderState) (data : Bytes)
    (h : st.error ≠ some wrongKeyMsg) :
    (setMasterSeed st data).error ≠ some wrongKeyMsg := by
  unfold setMasterSeed raiseError
  split_ifs <;> first | exact h | simp [wrongKeyMsg]

theorem setTransformSeed_error_ne (st : ReaderState) (data : Bytes)
    (h : st.error ≠ some wrongKeyMsg) :
    (setTransformSeed st data).error ≠ some wrongKeyMsg := by
  unfold setTransformSeed raiseError
  split_ifs <;> first | exact h | simp [wrongKeyMsg]

theorem setTransformRounds_error_ne (st : ReaderState) (data : Bytes)
    (h : st.error ≠ some wrongKeyMsg) :
    (setTransformRounds st data).error ≠ some wrongKeyMsg := by
  unfold setTransformRounds raiseError
  split_ifs <;> first | exact h | simp [wrongKeyMsg]

theorem setStreamStartBytes_error_ne (st : ReaderState) (data : Bytes)
    (h : st.error ≠ some wrongKeyMsg) :
    (setStreamStartBytes st data).error ≠ some wrongKeyMsg := by
  unfold setStreamStartBytes raiseError
  split_ifs <;> first | exact h | simp [wrongKeyMsg]

theorem setInnerRandomStreamID_error_ne (st : ReaderState) (data : Bytes)
    (h : st.error ≠ some wrongKeyMsg) :
    (setInnerRandomStreamID st data).error ≠ some wrongKeyMsg := by
  unfold setInnerRandomStreamID idToProtectedStreamAlgo raiseError
  split_ifs <;> try (by_cases hc : leNat data = 1 <;> simp [hc, wrongKeyMsg])
  all_goals exact h

set_option maxHeartbeats 2000000 in
theorem applyHeaderField_error_ne (st : ReaderState) (fieldID : Nat) (data : Bytes)
    (h : st.error ≠ some wrongKeyMsg) :
    (applyHeaderField st fieldID data).error ≠ some wrongKeyMsg := by
  unfold applyHeaderField
  split_ifs <;>
    first
      | exact h
      | exact setCipher_error_ne st data h
      | exact setCompressionFlags_error_ne st data h
      | exact setMasterSeed_error_ne st data h
      | exact setTransformSeed_error_ne st data h
      | exact setTransformRounds_error_ne st data h
      | exact setStreamStartBytes_error_ne st data h
      | exact setInnerRandomStreamID_error_ne st data h

theorem readHeaderField_error_ne (st : ReaderState) (s : ByteStream)
    (h : st.error ≠ some wrongKeyMsg) :
    (readHeaderField st s).1.error ≠ some wrongKeyMsg := by
  unfold readHeaderField
  intro hc
  dsimp only at hc
  split at hc
  case h_2 => exact absurd hc (by simp [raiseError, wrongKeyMsg])
  case h_1 =>
    split at hc
    case h_2 => exact absurd hc (by simp [raiseError, wrongKeyMsg])
    case h_1 =>
      split at hc
      · exact applyHeaderField_error_ne st _ _ h hc
      · exact absurd hc (by simp [raiseError, wrongKeyMsg])

theorem readHeaderLoopF_error_ne (fuel : Nat) :
    ∀ (st : ReaderState) (s : ByteStream), st.error ≠ some wrongKeyMsg →
      (readHeaderLoopF fuel st s).1.error ≠ some wrongKeyMsg := by
  induction fuel with
  | zero => intro st s h; exact h
  | succ n ih =>
    intro st s h
    unfold readHeaderLoopF
    dsimp only
    split
    · exact ih _ _ (readHeaderField_error_ne st s h)
    · exact readHeaderField_error_ne st s h

theorem readUIntLE_append (n : Nat) (a t st : Bytes) (ha : a.length = n) :
    readUIntLE ⟨a ++ t, st⟩ n = (some (leNat a), ⟨t, st ++ a⟩) := by
  unfold readUIntLE sread
  simp [List.take_left' ha, List.drop_left' ha, ha]

theorem readUIntLE_short (n : Nat) (s : ByteStream) (hs : s.data.length < n) :
    (readUIntLE s n).1 = none := by
  have h : ¬ (n ≤ s.data.length) := by omega
  unfold readUIntLE sread
  simp [List.length_take, h]

theorem headerPhase_error_ne (input : Bytes) (e : String)
    (h : headerPhase input = .error e) : e ≠ wrongKeyMsg := by
  unfold headerPhase readHeaderLoop at h
  repeat'
    first
      | split at h
      | dsimp only at h
  all_goals
    first
      | (injection h with h; subst h; decide)
      | exact Except.noConfusion h
      | (injection h with h; subst h; intro hw; subst hw;
         exact readHeaderLoopF_error_ne _ initialReaderState _ (by decide) (by assumption))

/-- C10: processing the TransformSeed and TransformRounds header fields
commutes — each installs a fresh AES-KDF only if none is present (keeping the
other component at the fresh default) and otherwise mutates the existing one
(keeping its other component), so a header carrying both fields yields the
AES-KDF with the given 32-byte seed and the given u64 LE rounds in either
order, and a repeated field overwrites the earlier value. -/
theorem c10_transform_header_fields (st : ReaderState) (s s2 r r2 : Bytes)
    (hs : s.length = 32) (hs2 : s2.length = 32) (hr : r.length = 8) (hr2 : r2.length = 8) :
    ((setTransformRounds (setTransformSeed st s) r).db.kdf = .aes ⟨s, leNat r⟩)
    ∧ ((setTransformSeed (setTransformRounds st r) s).db.kdf = .aes ⟨s, leNat r⟩)
    ∧ ((setTransformSeed st s).db.kdf
        = .aes ⟨s, match st.db.kdf with | .aes k => k.rounds | .other => aesKdfDefault.rounds⟩)
    ∧ ((setTransformRounds st r).db.kdf
        = .aes ⟨(match st.db.kdf with | .aes k => k.seed | .other => aesKdfDefault.seed), leNat r⟩)
    ∧ ((setTransformSeed (setTransformSeed st s) s2).db.kdf
        = .aes ⟨s2, match st.db.kdf with | .aes k => k.rounds | .other => aesKdfDefault.rounds⟩)
    ∧ ((setTransformRounds (setTransformRounds st r) r2).db.kdf
        = .aes ⟨(match st.db.kdf with | .aes k => k.seed | .other => aesKdfDefault.seed), leNat r2⟩) := by
  unfold setTransformSeed setTransformRounds
  cases hk : st.db.kdf <;> simp [hs, hs2, hr, hr2, hk]

/-- Witness for C10 at the initial reader state with concrete field data. -/
theorem c10_transform_header_fields_witness :
    ((setTransformRounds (setTransformSeed initialReaderState (List.replicate 32 2))
        [1, 0, 0, 0, 0, 0, 0, 0]).db.kdf = .aes ⟨List.replicate 32 2, 1⟩)
    ∧ ((setTransformSeed (setTransformRounds initialReaderState [1, 0, 0, 0, 0, 0, 0, 0])
        (List.replicate 32 2)).db.kdf = .aes ⟨List.replicate 32 2, 1⟩)
    ∧ ((setTransformSeed initialReaderState (List.replicate 32 2)).db.kdf
        = .aes ⟨List.replicate 32 2, 100000⟩)
    ∧ ((setTransformRounds initialReaderState [1, 0, 0, 0, 0, 0, 0, 0]).db.kdf
        = .aes ⟨[], 1⟩)
    ∧ ((setTransformSeed (setTransformSeed initialReaderState (List.replicate 32 2))
        (List.replicate 32 6)).db.kdf = .aes ⟨List.replicate 32 6, 100000⟩)
    ∧ ((setTransformRounds (setTransformRounds initialReaderState [1, 0, 0, 0, 0, 0, 0, 0])
        [2, 0, 0, 0, 0, 0, 0, 0]).db.kdf = .aes ⟨[], 2⟩) :=
  c10_transform_header_fields initialReaderState (List.replicate 32 2) (List.replicate 32 6)
    [1, 0, 0, 0, 0, 0, 0, 0] [2, 0, 0, 0, 0, 0, 0, 0]
    (by decide) (by decide) (by decide) (by decide)

/-- C7: before any header field is read (the result does not depend on the
bytes past the two magic words), `readDatabase` fails with "Not a KeePass
database." unless the first u32 LE equals `SIGNATURE_1` and the second equals
`SIGNATURE_2`, except that a second word equal to the KeePass 1 signature-2
produces the KDB v1 guidance message; an input shorter than the two magic
words fails the same way. -/
theorem c7_signature_check (env : Env) (key : Bytes) (keep : Bool)
    (a b rest s : Bytes) (ha : a.length = 4) (hb : b.length = 4) (hslen : s.length < 8) :
    (leNat a ≠ SIGNATURE_1 →
      readDatabase env (a ++ (b ++ rest)) key keep
        = ⟨none, some "Not a KeePass database."⟩)
    ∧ (leNat a = SIGNATURE_1 → leNat b = KP1_SIGNATURE_2 →
      readDatabase env (a ++ (b ++ rest)) key keep
        = ⟨none, some "The selected file is an old KeePass 1 database (.kdb)."⟩)
    ∧ (leNat a = SIGNATURE_1 → leNat b ≠ KP1_SIGNATURE_2 → leNat b ≠ SIGNATURE_2 →
      readDatabase env (a ++ (b ++ rest)) key keep
        = ⟨none, some "Not a KeePass database."⟩)
    ∧ (readDatabase env s key keep = ⟨none, some "Not a KeePass database."⟩) := by
  have h1 : readUIntLE ⟨a ++ (b ++ rest), []⟩ 4 = (some (leNat a), ⟨b ++ rest, a⟩) := by
    simpa using readUIntLE_append 4 a (b ++ rest) [] ha
  have h2 : readUIntLE ⟨b ++ rest, a⟩ 4 = (some (leNat b), ⟨rest, a ++ b⟩) :=
    readUIntLE_append 4 b rest a hb
  refine ⟨?_, ?_, ?_, ?_⟩
  · intro hne
    unfold readDatabase headerPhase
    rw [h1]
    simp [hne]
  · intro he1 he2
    unfold readDatabase headerPhase
    rw [h1]
    simp only [he1, ne_eq, not_true_eq_false, if_false, ite_false]
    rw [h2]
    simp [he2]
  · intro he1 hne2 hne2b
    unfold readDatabase headerPhase
    rw [h1]
    simp only [he1, ne_eq, not_true_eq_false, if_false, ite_false]
    rw [h2]
    simp [hne2, hne2b]
  · unfold readDatabase headerPhase
    by_cases h4 : s.length < 4
    · have hnone : (readUIntLE ⟨s, []⟩ 4).1 = none := readUIntLE_short 4 ⟨s, []⟩ h4
      rcases hr : readUIntLE ⟨s, []⟩ 4 with ⟨o, s1⟩
      rw [hr] at hnone
      simp at hnone
      subst hnone
      rfl
    · have hs4 : (s.take 4).length = 4 := by
        rw [List.length_take]
        omega
      have heq : s = s.take 4 ++ s.drop 4 := (List.take_append_drop 4 s).symm
      have h1s : readUIntLE ⟨s, []⟩ 4 = (some (leNat (s.take 4)), ⟨s.drop 4, s.take 4⟩) := by
        conv in readUIntLE _ 4 =>
          rw [show (⟨s, []⟩ : ByteStream) = ⟨s.take 4 ++ s.drop 4, []⟩ by rw [← heq]]
        simpa using readUIntLE_append 4 (s.take 4) (s.drop 4) [] hs4
      rw [h1s]
      have hlt : (s.drop 4).length < 4 := by
        rw [List.length_drop]
        omega
      have hnone2 : (readUIntLE ⟨s.drop 4, s.take 4⟩ 4).1 = none :=
        readUIntLE_short 4 ⟨s.drop 4, s.take 4⟩ hlt
      rcases hr2 : readUIntLE ⟨s.drop 4, s.take 4⟩ 4 with ⟨o2, s2⟩
      rw [hr2] at hnone2
      simp at hnone2
      subst hnone2
      dsimp only
      by_cases hsig : leNat (s.take 4) ≠ SIGNATURE_1
      · simp [hsig]
      · rw [if_neg hsig, hr2]

/-- Witness for C7 at concrete magic words: a wrong first word, the KDB v1
second word, a wrong second word, and a five-byte input. -/
theorem c7_signature_check_witness :
    ((leNat [0, 0, 0, 0] ≠ SIGNATURE_1 →
      readDatabase testEnv ([0, 0, 0, 0] ++ ([0x65, 0xFB, 0x4B, 0xB5] ++ [1, 2, 3])) testKey true
        = ⟨none, some "Not a KeePass database."⟩)
    ∧ (leNat [0, 0, 0, 0] = SIGNATURE_1 → leNat [0x65, 0xFB, 0x4B, 0xB5] = KP1_SIGNATURE_2 →
      readDatabase testEnv ([0, 0, 0, 0] ++ ([0x65, 0xFB, 0x4B, 0xB5] ++ [1, 2, 3])) testKey true
        = ⟨none, some "The selected file is an old KeePass 1 database (.kdb)."⟩)
    ∧ (leNat [0, 0, 0, 0] = SIGNATURE_1 → leNat [0x65, 0xFB, 0x4B, 0xB5] ≠ KP1_SIGNATURE_2 →
        leNat [0x65, 0xFB, 0x4B, 0xB5] ≠ SIGNATURE_2 →
      readDatabase testEnv ([0, 0, 0, 0] ++ ([0x65, 0xFB, 0x4B, 0xB5] ++ [1, 2, 3])) testKey true
        = ⟨none, some "Not a KeePass database."⟩)
    ∧ (readDatabase testEnv [3, 217, 162, 154, 103] testKey true
        = ⟨none, some "Not a KeePass database."⟩)) :=
  c7_signature_check testEnv testKey true [0, 0, 0, 0] [0x65, 0xFB, 0x4B, 0xB5] [1, 2, 3]
    [3, 217, 162, 154, 103] (by decide) (by decide) (by decide)

/-- C1: whenever the header parses successfully, `readDatabase` proceeds into
the cipher stream with exactly the final key
`SHA-256(masterSeed || challengeResponse || transformedKey)` (`specFinalKey`),
where the transformed key is the AES-KDF transformation of the composite key
under the seed and rounds held by the database KDF after the header (the
header's TransformSeed/TransformRounds fields), and the challenge response is
empty when no challenge-response provider is present. -/
theorem c1_final_key (env : Env) (input key : Bytes) (keep : Bool)
    (st : ReaderState) (stream : ByteStream) (seed : Bytes) (rounds : Nat) (t cr : Bytes)
    (h1 : headerPhase input = .ok (st, stream))
    (h2 : st.db.kdf = .aes ⟨seed, rounds⟩)
    (h3 : env.aesKdfTransform key seed rounds = some t)
    (h4 : challengeResult env st.masterSeed = some cr) :
    readDatabase env input key keep
      = startBytesPhase env stream st
          { st.db with transformedMasterKey := t, challengeResponseKey := cr }
          keep (specFinalKey env st.masterSeed cr t)
    ∧ (env.challenge = none → cr = []) := by
  constructor
  · unfold challengeResult at h4
    cases hc : env.challenge with
    | none =>
      rw [hc] at h4
      injection h4 with h4
      subst h4
      simp [readDatabase, dbSetKey, dbChallengeMasterSeed, h1, h2, h3, hc, specFinalKey]
    | some f =>
      rw [hc] at h4
      dsimp only at h4
      simp [readDatabase, dbSetKey, dbChallengeMasterSeed, h1, h2, h3, hc, h4, specFinalKey]
  · intro hc
    unfold challengeResult at h4
    rw [hc] at h4
    injection h4 with h4
    exact h4.symm

/-- Witness for C1 on the concrete well-formed input and environment. -/
theorem c1_final_key_witness :
    (readDatabase testEnv testInput testKey true
      = startBytesPhase testEnv testStream testSt
          { testSt.db with transformedMasterKey := testKey, challengeResponseKey := [] }
          true (specFinalKey testEnv testSt.masterSeed [] testKey))
    ∧ (testEnv.challenge = none → ([] : Bytes) = []) :=
  c1_final_key testEnv testInput testKey true testSt testStream
    (List.replicate 32 2) 1 testKey [] rfl (by decide) rfl rfl

/-- C3: when the XML payload declares a `HeaderHash`, `readDatabase` compares
it with the SHA-256 of exactly the bytes captured by the store-data stream
during header parsing (`stream.stored`); a mismatch is fatal — the reader
fails with the header-hash message and returns no database — and a match
yields the parsed database. -/
theorem c3_header_hash (env : Env) (input key : Bytes) (keep : Bool)
    (st : ReaderState) (stream : ByteStream) (db1 db2 : Database)
    (pt blocks xmlBytes : Bytes)
    (h1 : headerPhase input = .ok (st, stream))
    (h2 : dbSetKey env st.db key = some db1)
    (h3 : dbChallengeMasterSeed env db1 st.masterSeed = some db2)
    (h4 : env.decrypt
        (env.sha256 (st.masterSeed ++ db2.challengeResponseKey ++ db2.transformedMasterKey))
        st.encryptionIV stream.data = some pt)
    (h5 : pt.take 32 = st.streamStartBytes)
    (h6 : env.hashedBlockDecode (pt.drop 32) = some blocks)
    (h7 : (if db2.compressionAlgo = 0 then some blocks else env.gunzip blocks) = some xmlBytes)
    (h8 : env.randomStreamInit st.protectedStreamKey = true)
    (h9 : (env.xmlRead xmlBytes db2).hasError = false)
    (h10 : (env.xmlRead xmlBytes db2).headerHash ≠ []) :
    (readDatabase env input key keep = ⟨none, some headerHashMsg⟩
       ↔ env.sha256 stream.stored ≠ (env.xmlRead xmlBytes db2).headerHash)
    ∧ (env.sha256 stream.stored = (env.xmlRead xmlBytes db2).headerHash →
        readDatabase env input key keep = ⟨some (env.xmlRead xmlBytes db2).db, none⟩) := by
  have hred : readDatabase env input key keep =
      (if env.sha256 stream.stored ≠ (env.xmlRead xmlBytes db2).headerHash
        then ⟨none, some headerHashMsg⟩ else ⟨some (env.xmlRead xmlBytes db2).db, none⟩) := by
    unfold readDatabase
    rw [h1]
    try dsimp only
    rw [h2]
    try dsimp only
    rw [h3]
    try dsimp only
    unfold startBytesPhase
    rw [h4]
    try dsimp only
    rw [if_neg (by simp [h5])]
    unfold payloadPhase
    rw [h6]
    try dsimp only
    rw [h7]
    try dsimp only
    rw [if_neg (by simp [h8])]
    try dsimp only
    rw [if_neg (by simp [h9])]
    rw [if_pos h10]
  rw [hred]
  by_cases hm : env.sha256 stream.stored ≠ (env.xmlRead xmlBytes db2).headerHash
  · rw [if_pos hm]
    constructor
    · constructor
      · intro _; exact hm
      · intro _; rfl
    · intro he; exact absurd he hm
  · rw [if_neg hm]
    constructor
    · constructor
      · intro hcontra
        exact absurd (congrArg ReadResult.error hcontra) (by simp)
      · intro hne; exact absurd hne hm
    · intro _; rfl

/-- Witness for C3 on the concrete input and the environment whose XML reader
declares the (non-matching) header hash `[9]`. -/
theorem c3_header_hash_witness :
    ((readDatabase testEnvHH testInput testKey true = ⟨none, some headerHashMsg⟩
       ↔ testEnvHH.sha256 testStream.stored ≠ (testEnvHH.xmlRead [] testDb2).headerHash)
    ∧ (testEnvHH.sha256 testStream.stored = (testEnvHH.xmlRead [] testDb2).headerHash →
        readDatabase testEnvHH testInput testKey true
          = ⟨some (testEnvHH.xmlRead [] testDb2).db, none⟩)) :=
  c3_header_hash testEnvHH testInput testKey true testSt testStream testDb1 testDb2
    (List.replicate 32 5) [] [] rfl rfl rfl rfl (by decide) rfl rfl rfl rfl (by decide)

/-- C4: a failing `readDatabase` hands the partially-built database to the
caller alongside the error exactly when `keepDatabase` is set and the error
arose inside the XML payload; every earlier error (signatures, version,
header fields, key derivation, cipher initialisation, stream-start-bytes
mismatch) and the later header-hash mismatch return no database regardless of
`keepDatabase`. -/
theorem c4_keep_database (env : Env) (input key : Bytes) (keep : Bool) :
    ((readDatabase env input key keep).db.isSome
        ∧ (readDatabase env input key keep).error.isSome)
      ↔ (keep = true ∧ xmlPhaseErrored env input key = true) := by
  unfold readDatabase xmlPhaseErrored startBytesPhase payloadPhase
  cases hh : headerPhase input with
  | error e => simp
  | ok p =>
    obtain ⟨st, stream⟩ := p
    try dsimp only
    cases hsk : dbSetKey env st.db key with
    | none => simp
    | some db1 =>
      try dsimp only
      cases hch : dbChallengeMasterSeed env db1 st.masterSeed with
      | none => simp
      | some db2 =>
        try dsimp only
        cases hdec : env.decrypt
            (env.sha256 (st.masterSeed ++ db2.challengeResponseKey ++ db2.transformedMasterKey))
            st.encryptionIV stream.data with
        | none => simp
        | some pt =>
          try dsimp only
          by_cases hsb : pt.take 32 ≠ st.streamStartBytes
          · simp [hsb]
          · simp only [if_neg hsb]
            cases hhb : env.hashedBlockDecode (pt.drop 32) with
            | none => simp
            | some blocks =>
              try dsimp only
              cases hxm : (if db2.compressionAlgo = 0 then some blocks else env.gunzip blocks) with
              | none => simp
              | some xmlBytes =>
                try dsimp only
                by_cases hrs : env.randomStreamInit st.protectedStreamKey = false
                · simp [hrs]
                · simp only [if_neg hrs]
                  try dsimp only
                  cases hxe : (env.xmlRead xmlBytes db2).hasError with
                  | true => cases keep <;> simp [hxe]
                  | false => split_ifs <;> simp_all

/-- C2 (amended): with an XML reader whose error messages never collide with
the wrong-key message, `readDatabase` fails with exactly
"Wrong key or database file is corrupt." and no database if and only if the
reader reached the stream-start-bytes comparison and the first 32 decrypted
plaintext bytes differ from the `StreamStartBytes` header field
(`startBytesMismatch`). -/
theorem c2_start_bytes_check (env : Env) (input key : Bytes) (keep : Bool)
    (hxml : ∀ xmlBytes db, (env.xmlRead xmlBytes db).errorString ≠ wrongKeyMsg) :
    (readDatabase env input key keep = ⟨none, some wrongKeyMsg⟩
      ↔ startBytesMismatch env input key = true) := by
  have hnm : headerHashMsg ≠ wrongKeyMsg := by decide
  unfold readDatabase startBytesMismatch startBytesPhase payloadPhase
  cases hh : headerPhase input with
  | error e =>
    have he := headerPhase_error_ne input e hh
    simp [he]
  | ok p =>
    obtain ⟨st, stream⟩ := p
    try dsimp only
    cases hsk : dbSetKey env st.db key with
    | none => simp [wrongKeyMsg]
    | some db1 =>
      try dsimp only
      cases hch : dbChallengeMasterSeed env db1 st.masterSeed with
      | none => simp [wrongKeyMsg]
      | some db2 =>
        try dsimp only
        cases hdec : env.decrypt
            (env.sha256 (st.masterSeed ++ db2.challengeResponseKey ++ db2.transformedMasterKey))
            st.encryptionIV stream.data with
        | none => simp [wrongKeyMsg]
        | some pt =>
          try dsimp only
          by_cases hsb : pt.take 32 ≠ st.streamStartBytes
          · simp [hsb]
          · simp only [if_neg hsb]
            cases hhb : env.hashedBlockDecode (pt.drop 32) with
            | none => simp [wrongKeyMsg, hsb]
            | some blocks =>
              try dsimp only
              cases hxm : (if db2.compressionAlgo = 0 then some blocks else env.gunzip blocks) with
              | none => simp [wrongKeyMsg, hsb]
              | some xmlBytes =>
                try dsimp only
                by_cases hrs : env.randomStreamInit st.protectedStreamKey = false
                · simp [hrs, wrongKeyMsg, hsb]
                · simp only [if_neg hrs]
                  try dsimp only
                  cases hxe : (env.xmlRead xmlBytes db2).hasError with
                  | true =>
                    have hx := hxml xmlBytes db2
                    simp [hxe, hx, hsb]
                  | false => split_ifs <;> simp_all [hnm]

/-- Witness for C2 on a concrete input whose decrypted start bytes differ
from the `StreamStartBytes` field. -/
theorem c2_start_bytes_check_witness :
    (readDatabase testEnv testInputBad testKey false = ⟨none, some wrongKeyMsg⟩
      ↔ startBytesMismatch testEnv testInputBad testKey = true) :=
  c2_start_bytes_check testEnv testInputBad testKey false (fun _ _ => by simp [testEnv, wrongKeyMsg])

/-- Counterexample to C2 as stated: the claim that every key different from
the one the file was written with fails with the wrong-key error is not a
consequence of the code — the comparison only sees the 32 decrypted bytes, so
under a cipher for which two distinct keys decrypt the start bytes equally,
both keys are accepted. Concretely, `testInput` reads back successfully under
two different keys in `testEnv`. -/
theorem c2_wrong_key_counterexample :
    (readDatabase testEnv testInput (List.replicate 32 7) false).error = none
    ∧ (readDatabase testEnv testInput (List.replicate 32 8) false).error = none
    ∧ (List.replicate 32 7 : Bytes) ≠ List.replicate 32 8 :=
  ⟨rfl, rfl, by decide⟩

end Kdbx

namespace KXml

/-- C5: each broken fixture fails exactly as the strict/lenient table
prescribes — a Group or Entry with a missing UUID, a malformed DeletedObject
and a history entry with a divergent UUID fail strictly and parse leniently; a
Root without a Group, two Root elements and two root Groups fail in both
modes; a dangling Group UUID reference parses in both modes with exactly one
warning. -/
theorem c5_strict_lenient_table :
    ((readXml true brokenNoGroupUuid).hasError = true
      ∧ (readXml false brokenNoGroupUuid).hasError = false)
    ∧ ((readXml true brokenNoEntryUuid).hasError = true
      ∧ (readXml false brokenNoEntryUuid).hasError = false)
    ∧ ((readXml true brokenDeletedObjects).hasError = true
      ∧ (readXml false brokenDeletedObjects).hasError = false)
    ∧ ((readXml true brokenDifferentEntryHistoryUuid).hasError = true
      ∧ (readXml false brokenDifferentEntryHistoryUuid).hasError = false)
    ∧ ((readXml true brokenNoRootGroup).hasError = true
      ∧ (readXml false brokenNoRootGroup).hasError = true)
    ∧ ((readXml true brokenTwoRoots).hasError = true
      ∧ (readXml false brokenTwoRoots).hasError = true)
    ∧ ((readXml true brokenTwoRootGroups).hasError = true
      ∧ (readXml false brokenTwoRootGroups).hasError = true)
    ∧ ((readXml true brokenGroupReference).hasError = false
      ∧ (readXml false brokenGroupReference).hasError = false
      ∧ (readXml true brokenGroupReference).warnings = 1
      ∧ (readXml false brokenGroupReference).warnings = 1) := by
  decide

/-- C6: the invalid-XML-character scrub drops characters outside the XML 1.0
range and unpaired surrogates while preserving valid surrogate pairs — on the
ten attribute values of `testXmlInvalidXmlChars` it produces exactly the
expected outputs. -/
theorem c6_invalid_xml_chars :
    scrubUtf16 [0x02, 0x19, 0xFFFE, 0xFFFF] = []
    ∧ scrubUtf16 [0x09, 0x0A, 0x20, 0xD7FF, 0xE000, 0xFFFD]
        = [0x09, 0x0A, 0x20, 0xD7FF, 0xE000, 0xFFFD]
    ∧ scrubUtf16 [0xD801] = []
    ∧ scrubUtf16 [0x31, 0xD801, 0x32] = [0x31, 0x32]
    ∧ scrubUtf16 [0xD801, 0xD801] = []
    ∧ scrubUtf16 [0xDC37] = []
    ∧ scrubUtf16 [0x31, 0xDC37, 0x32] = [0x31, 0x32]
    ∧ scrubUtf16 [0xDC37, 0xDC37] = []
    ∧ scrubUtf16 [0xD801, 0xDC37] = [0xD801, 0xDC37]
    ∧ scrubUtf16 [0x31, 0xD801, 0xDC37, 0x32] = [0x31, 0xD801, 0xDC37, 0x32] := by
  decide

/-- C8: parsing `BrokenDifferentEntryHistoryUuid.xml` leniently succeeds and
yields exactly one entry with exactly one history item whose UUID is non-nil
and equal to the containing entry's UUID. -/
theorem c8_history_uuid_repair :
    repairedHistoryResult.hasError = false
    ∧ (repairedHistoryResult.db.map fun db => db.root.entries.map Entry.uuid)
        = some [uuidB]
    ∧ (repairedHistoryResult.db.map fun db =>
        db.root.entries.map fun e => e.history.map Entry.uuid) = some [[uuidB]]
    ∧ uuidB ≠ nilUuid := by
  decide

/-- C9: parsing the EmptyUuids fixture with strict mode on succeeds without
error or warnings — its empty UUID elements decode to the nil UUID instead of
triggering the strict missing-UUID failure. -/
theorem c9_empty_uuids_strict :
    (readXml true emptyUuids).hasError = false
    ∧ (readXml true emptyUuids).db.isSome = true
    ∧ (readXml true emptyUuids).warnings = 0 := by
  decide

end KXml
